import Mathlib

/-!
Verification of the doc-transcribe-worker job execution engine.

Shallow embedding of the worker's Python modules:
`worker/status_machine.py`, `worker/error_catalog.py`, `worker/recovery_policy.py`,
`worker/cancel.py` (with `worker/utils/retry_policy.py`), `worker/quality/ocr_quality.py`,
`worker/orchestrator/router.py` and `worker/worker_loop.py`.

Strings are Lean `String`; Python `str.strip` / `str.upper` / `str.lower` are modelled
for the ASCII range (`Char.isWhitespace`, `Char.toUpper`, `Char.toLower`), which covers
every status word, error code and marker the code compares against.  Python numbers that
feed comparisons are modelled as `Int` (attempt counters, budgets) and `ℚ` (quality
scores); a Redis hash is an association list of string fields in insertion order.
-/

namespace DocWorker

/-! ## Python string primitives -/

/-- Python `str.strip()` (ASCII whitespace): drop leading and trailing whitespace. -/
def pyStrip (s : String) : String :=
  ⟨((s.data.dropWhile Char.isWhitespace).reverse.dropWhile Char.isWhitespace).reverse⟩

/-- Python `str.upper()` on the ASCII range. -/
def pyUpper (s : String) : String :=
  ⟨s.data.map Char.toUpper⟩

/-- Python `str.lower()` on the ASCII range. -/
def pyLower (s : String) : String :=
  ⟨s.data.map Char.toLower⟩

/-- `pat` begins the character list `hay`. -/
def startsWithL : List Char → List Char → Bool
  | _, [] => true
  | [], _ :: _ => false
  | a :: as, b :: bs => (a == b) && startsWithL as bs

/-- `pat` occurs contiguously inside the character list `hay`. -/
def containsSubL (hay pat : List Char) : Bool :=
  match hay with
  | [] => pat.isEmpty
  | _ :: t => startsWithL hay pat || containsSubL t pat

/-- Python `pat in hay` (substring test). -/
def strContains (hay pat : String) : Bool :=
  containsSubL hay.data pat.data

/-- Python `a or b` for an optional string `a`: `b` when `a` is missing or empty. -/
def pyOr (a : Option String) (b : String) : String :=
  match a with
  | none => b
  | some s => if s = "" then b else s

/-! ## Redis hash records

A status record (the hash at `job_status:<job_id>`) and an `hset` mapping are both
finite string-to-string dictionaries, modelled as association lists in insertion
order with unique keys (Python dicts cannot repeat a key). -/

abbrev Record := List (String × String)

/-- `dict.get(field)`: value of the first binding of `field`, if any. -/
def getField : Record → String → Option String
  | [], _ => none
  | (k, w) :: rest, f => if k = f then some w else getField rest f

/-- Set one field of a hash, overwriting in place or appending (dict insertion order). -/
def setField : Record → String → String → Record
  | [], f, v => [(f, v)]
  | (k, w) :: rest, f, v => if k = f then (f, v) :: rest else (k, w) :: setField rest f v

/-- `r.hset(key, mapping=mapping)`: write every field of `mapping` into the hash. -/
def hset (rec : Record) (mapping : Record) : Record :=
  mapping.foldl (fun r p => setField r p.1 p.2) rec

/-! ## worker/status_machine.py

The status vocabulary constants are imported by the source from `worker.contract`
(declarations only; the module itself is not under `src/`).  Their values are pinned
by spec §3 and by `src/tests/test_status_machine_unit.py`, which compares them against
the literal upper-case words. -/

def JOB_STATUS_QUEUED : String := "QUEUED"

def JOB_STATUS_PROCESSING : String := "PROCESSING"

def JOB_STATUS_COMPLETED : String := "COMPLETED"

def JOB_STATUS_FAILED : String := "FAILED"

def JOB_STATUS_CANCELLED : String := "CANCELLED"

/-- `_norm`: `str(status).strip().upper()`, with `None`/empty collapsing to `None`. -/
def normStatus (status : Option String) : Option String :=
  match status with
  | none => none
  | some s =>
    if pyUpper (pyStrip s) = "" then none else some (pyUpper (pyStrip s))

/-- The `_ALLOWED` table row for a (normalized) current status, including the
`_ALLOWED.get(current_n, _ALLOWED[None])` fallback for unrecognized statuses. -/
def allowedRow (current : Option String) : List String :=
  if current = some JOB_STATUS_QUEUED then
    [JOB_STATUS_QUEUED, JOB_STATUS_PROCESSING, JOB_STATUS_COMPLETED, JOB_STATUS_FAILED,
      JOB_STATUS_CANCELLED]
  else if current = some JOB_STATUS_PROCESSING then
    [JOB_STATUS_PROCESSING, JOB_STATUS_COMPLETED, JOB_STATUS_FAILED, JOB_STATUS_CANCELLED]
  else if current = some JOB_STATUS_COMPLETED then [JOB_STATUS_COMPLETED]
  else if current = some JOB_STATUS_FAILED then [JOB_STATUS_FAILED]
  else if current = some JOB_STATUS_CANCELLED then [JOB_STATUS_CANCELLED]
  else
    [JOB_STATUS_QUEUED, JOB_STATUS_PROCESSING, JOB_STATUS_COMPLETED, JOB_STATUS_FAILED,
      JOB_STATUS_CANCELLED]

/-- `is_allowed_transition(current, target)`. -/
def is_allowed_transition (current target : Option String) : Bool :=
  match normStatus target with
  | none => true
  | some target_n => (allowedRow (normStatus current)).contains target_n

/-- Result triple of `guarded_hset`: `(ok, current, target)`. -/
structure HsetResult where
  ok : Bool
  fromStatus : Option String
  toStatus : Option String
  deriving Repr, DecidableEq

/-- `guarded_hset(r, key=key, mapping=mapping, ...)`.  The hash currently stored at
`key` is `rec`; the call returns the new stored hash together with the
`(ok, current, target)` triple.  Logging-only parameters (`context`, `request_id`)
are dropped. -/
def guarded_hset (rec : Record) (mapping : Record) : Record × HsetResult :=
  match normStatus (getField mapping "status") with
  | none => (hset rec mapping, ⟨true, none, none⟩)
  | some target =>
    let current := normStatus (getField rec "status")
    if is_allowed_transition current (some target) then
      (hset rec mapping, ⟨true, current, some target⟩)
    else
      (rec, ⟨false, current, some target⟩)

/-- Normalized status stored in a record. -/
def statusN (rec : Record) : Option String :=
  normStatus (getField rec "status")

/-- The stored hash after one guarded write. -/
def stepRec (rec : Record) (mapping : Record) : Record :=
  (guarded_hset rec mapping).1

/-- Run a sequence of guarded writes starting from an unset record. -/
def runWrites (ms : List Record) : Record :=
  ms.foldl stepRec []

/-- One step of the §4.3 allowed-transition graph: the status is unchanged, or the
move is an edge of the table (a non-empty target permitted from the current row). -/
def pathStepB (s t : Option String) : Bool :=
  (t == s) || (t.isSome && is_allowed_transition s t)

/-- The three terminal statuses. -/
def terminalStatuses : List String :=
  [JOB_STATUS_COMPLETED, JOB_STATUS_FAILED, JOB_STATUS_CANCELLED]

/-- `true` when the `status` field of a mapping, if present, survives `_norm`
(it does not strip down to the empty string). -/
def statusFieldOk (m : Record) : Bool :=
  match getField m "status" with
  | none => true
  | some v => (normStatus (some v)).isSome

/-- A mapping as a Python dict whose `status` field, when present, does not normalize
to empty: keys are unique and the status value survives `_norm`. -/
def goodMapping (m : Record) : Prop :=
  (m.map Prod.fst).Nodup ∧ statusFieldOk m = true

instance (m : Record) : Decidable (goodMapping m) :=
  inferInstanceAs (Decidable (_ ∧ _))

/-! ## worker/error_catalog.py

A raised Python exception, as far as `classify_error` inspects it: its textual
representation `f"{exc}"` and the two `isinstance` tags the code tests
(`FileNotFoundError` and `redis.exceptions.ConnectionError`). -/

structure PyException where
  text : String
  isFileNotFoundError : Bool := false
  isRedisConnectionError : Bool := false

/-- `_is_gcs_connection_error(low)`. -/
def _is_gcs_connection_error (low : String) : Bool :=
  (["remote end closed connection", "remotedisconnected", "connection aborted",
      "connection reset", "httpsconnectionpool", "sslerror"].any
    fun m => strContains low m) &&
  (["storage.googleapis.com", "googleapis.com/storage", "google.cloud.storage", "gcs",
      "signed_url", "upload", "download", "blob"].any
    fun m => strContains low m)

/-- `classify_error(exc) -> (code, user_message)`. -/
def classify_error (exc : PyException) : String × String :=
  let low := pyLower (pyStrip exc.text)
  if _is_gcs_connection_error low then
    ("INFRA_GCS", "Storage service connection issue while uploading output. Please retry.")
  else if strContains low "resource exhausted" || strContains low "429" ||
      strContains low "quota" then
    ("RATE_LIMIT_EXCEEDED", "Service is busy right now. Please retry shortly.")
  else if strContains low "ffmpeg" || strContains low "decoding failed" ||
      strContains low "could not decode" then
    ("MEDIA_DECODE_FAILED", "Input media could not be decoded. Please upload a supported file.")
  else if exc.isFileNotFoundError || strContains low "no such file" then
    ("INPUT_NOT_FOUND", "Input file was not found for processing.")
  else if exc.isRedisConnectionError || strContains low "redis" ||
      strContains low "connection closed" || strContains low "closed by server" ||
      strContains low "timeout" then
    ("INFRA_REDIS", "Queue/storage connection issue while processing.")
  else
    ("PROCESSING_FAILED", "Processing failed due to an internal error.")

/-! ## worker/recovery_policy.py

Attempt counters and budgets are Python ints, modelled as `Int`. -/

/-- `classify_recovery_reason(error_code)`. -/
def classify_recovery_reason (error_code : String) : String :=
  if ["INFRA_REDIS", "INFRA_GCS", "RATE_LIMIT_EXCEEDED"].contains (pyUpper error_code) then
    "TRANSIENT_INFRA"
  else if ["MEDIA_DECODE_FAILED", "INPUT_NOT_FOUND"].contains (pyUpper error_code) then
    "INPUT_MEDIA"
  else
    "UNKNOWN_OR_FATAL"

/-- The dict returned by `decide_recovery_action`. -/
structure RecoveryDecision where
  recovery_action : String
  recovery_reason : String
  recovery_attempt : Int
  recovery_max_attempts : Int
  retry_allowed : Bool
  deriving Repr, DecidableEq

/-- `decide_recovery_action(error_code=..., attempts=..., budget_transient=...,
budget_media=..., budget_default=...)`. -/
def decide_recovery_action (error_code : String) (attempts : Int)
    (budget_transient budget_media budget_default : Int) : RecoveryDecision :=
  let code := pyUpper error_code
  let reason := classify_recovery_reason code
  let budget :=
    if reason = "TRANSIENT_INFRA" then max 0 budget_transient
    else if reason = "INPUT_MEDIA" then max 0 budget_media
    else max 0 budget_default
  let attempt_now := max 0 attempts
  let retry_allowed := decide (attempt_now < budget)
  let next_attempt := if retry_allowed then attempt_now + 1 else attempt_now
  let action := if retry_allowed then "retry_with_backoff" else "fail_fast_dlq"
  ⟨action, reason, next_attempt, budget, retry_allowed⟩

/-- `recovery_policy.should_retry(error_code, attempts, budgets)`. -/
def recovery_should_retry (error_code : String) (attempts : Int) (budgets : Int × Int × Int) :
    Bool × Int :=
  let decision :=
    decide_recovery_action error_code attempts budgets.1 budgets.2.1 budgets.2.2
  (decision.retry_allowed, decision.recovery_max_attempts)

/-! ## worker/worker_loop.py (local retry decision)

`worker_loop.should_retry` consults the module-level env-configured budgets
`RETRY_BUDGET_{TRANSIENT,MEDIA,DEFAULT}`, passed here as explicit arguments. -/

/-- `worker_loop.should_retry(error_code, attempts)` with the three configured budgets. -/
def worker_should_retry (error_code : String) (attempts : Int)
    (RETRY_BUDGET_TRANSIENT RETRY_BUDGET_MEDIA RETRY_BUDGET_DEFAULT : Int) : Bool × Int :=
  let budget :=
    if ["INFRA_REDIS", "INFRA_GCS", "RATE_LIMIT_EXCEEDED"].contains error_code then
      RETRY_BUDGET_TRANSIENT
    else if ["MEDIA_DECODE_FAILED", "INPUT_NOT_FOUND"].contains error_code then
      RETRY_BUDGET_MEDIA
    else RETRY_BUDGET_DEFAULT
  (decide (attempts < budget), budget)

/-! ## worker/cancel.py with worker/utils/retry_policy.py

The Redis `hgetall` read is modelled as an oracle giving, per call index, either the
hash contents or one of the failure classes `is_cancelled` distinguishes: the two
retryable transport errors (`redis.exceptions.ConnectionError`, `TimeoutError`) and
any other raised error. -/

inductive KVReadOutcome where
  | ok (data : Record)
  | connError
  | timeoutError
  | otherError
  deriving Repr, DecidableEq

/-- Body of `_read_cancel_state()` applied to the hash contents it read. -/
def readCancelState (data : Record) : Bool :=
  if data.isEmpty then false
  else
    (getField data "cancel_requested" == some "1") ||
      (pyUpper (pyOr (getField data "status") "") == "CANCELLED")

/-- Result of `run_with_retry`: a returned value, or the raised exception class. -/
inductive RetryRunResult where
  | value (b : Bool)
  | raisedConn
  | raisedTimeout
  | raisedOther
  deriving Repr, DecidableEq

/-- The retry loop of `run_with_retry`: call `fn` at index `idx`; on a retryable
failure, give up when no retries remain (`attempt >= policy.max_retries`), else
retry the next index.  Backoff sleeps and logging do not affect the result. -/
def retryGo (fn : Nat → KVReadOutcome) : Nat → Nat → RetryRunResult
  | idx, 0 =>
    match fn idx with
    | .ok data => .value (readCancelState data)
    | .otherError => .raisedOther
    | .connError => .raisedConn
    | .timeoutError => .raisedTimeout
  | idx, r + 1 =>
    match fn idx with
    | .ok data => .value (readCancelState data)
    | .otherError => .raisedOther
    | .connError => retryGo fn (idx + 1) r
    | .timeoutError => retryGo fn (idx + 1) r

/-- `run_with_retry(operation="cancel_check", ..., retryable=(ConnectionError,
TimeoutError), policy=policy)` on the `_read_cancel_state` thunk. -/
def run_with_retry (max_retries : Nat) (fn : Nat → KVReadOutcome) : RetryRunResult :=
  retryGo fn 0 max_retries

/-- `is_cancelled(job_id)`: the guarded read, with the surrounding
`except (ConnectionError, TimeoutError): return False` handler.  `none` models an
exception that propagates to the caller. -/
def is_cancelled (max_retries : Nat) (fn : Nat → KVReadOutcome) : Option Bool :=
  match run_with_retry max_retries fn with
  | .value b => some b
  | .raisedConn => some false
  | .raisedTimeout => some false
  | .raisedOther => none

/-! ## worker/quality/ocr_quality.py (guard rules)

Scores, metrics and thresholds are Python floats; all values reaching the claim's
comparisons are exact two- or three-decimal constants with slack far above binary
float error, so they are modelled as `ℚ`. -/

/-- `clamp01(value)`. -/
def clamp01 (value : ℚ) : ℚ :=
  max 0 (min 1 value)

/-- Python 3 `round(q)`: round half to even on the exact value. -/
def pyRoundInt (q : ℚ) : Int :=
  if q - ⌊q⌋ < 1 / 2 then ⌊q⌋
  else if q - ⌊q⌋ > 1 / 2 then ⌊q⌋ + 1
  else if ⌊q⌋ % 2 = 0 then ⌊q⌋ else ⌊q⌋ + 1

/-- Python `round(q, 2)`. -/
def round2 (q : ℚ) : ℚ :=
  (pyRoundInt (q * 100) : ℚ) / 100

/-- The five per-page metrics handed to `apply_guard_rules` (already rounded by the
caller `score_page`). -/
structure OcrMetrics where
  char_conf_proxy : ℚ
  contrast_score : ℚ
  blur_score : ℚ
  text_density_score : ℚ
  garbage_ratio : ℚ
  deriving Repr, DecidableEq

/-- The guard-threshold bundle (the keys of `DEFAULT_GUARDS`). -/
structure OcrGuards where
  clean_text_min_chars : Nat
  clean_text_garbage_max : ℚ
  clean_text_char_conf_min : ℚ
  clean_text_floor : ℚ
  hint_suppress_density_min : ℚ
  clean_proxy_density_min : ℚ
  clean_proxy_floor : ℚ
  sparse_clean_density_max : ℚ
  sparse_clean_bonus : ℚ
  dense_clean_bonus : ℚ
  dense_clean_char_conf_min : ℚ
  dense_clean_garbage_max : ℚ
  dense_clean_density_min : ℚ
  dense_blur_density_min : ℚ
  dense_blur_min : ℚ
  dense_blur_penalty : ℚ
  dense_blur_penalty_noise_min : ℚ
  low_threshold : ℚ

/-- `DEFAULT_GUARDS`. -/
def DEFAULT_GUARDS : OcrGuards where
  clean_text_min_chars := 80
  clean_text_garbage_max := 12 / 100
  clean_text_char_conf_min := 78 / 100
  clean_text_floor := 65 / 100
  hint_suppress_density_min := 35 / 100
  clean_proxy_density_min := 4 / 100
  clean_proxy_floor := 62 / 100
  sparse_clean_density_max := 25 / 100
  sparse_clean_bonus := 8 / 100
  dense_clean_bonus := 8 / 100
  dense_clean_char_conf_min := 90 / 100
  dense_clean_garbage_max := 5 / 100
  dense_clean_density_min := 15 / 100
  dense_blur_density_min := 70 / 100
  dense_blur_min := 80 / 100
  dense_blur_penalty := 10 / 100
  dense_blur_penalty_noise_min := 8 / 100
  low_threshold := 65 / 100

/-- The `is_clean_text` predicate of `apply_guard_rules`. -/
def is_clean_text_pred (metrics : OcrMetrics) (text : String) (guards : OcrGuards) : Bool :=
  decide ((pyStrip text).length ≥ guards.clean_text_min_chars) &&
    decide (metrics.garbage_ratio ≤ guards.clean_text_garbage_max) &&
    decide (metrics.char_conf_proxy ≥ guards.clean_text_char_conf_min)

/-- The `clean_proxy` predicate of `apply_guard_rules`. -/
def clean_proxy_pred (metrics : OcrMetrics) (guards : OcrGuards) : Bool :=
  decide (metrics.char_conf_proxy ≥ guards.clean_text_char_conf_min) &&
    decide (metrics.garbage_ratio ≤ guards.clean_text_garbage_max) &&
    decide (metrics.text_density_score ≥ guards.clean_proxy_density_min)

/-- The `dense_clean` predicate of `apply_guard_rules`. -/
def dense_clean_pred (metrics : OcrMetrics) (guards : OcrGuards) : Bool :=
  decide (metrics.char_conf_proxy ≥ guards.dense_clean_char_conf_min) &&
    decide (metrics.garbage_ratio ≤ guards.dense_clean_garbage_max) &&
    decide (metrics.text_density_score ≥ guards.dense_clean_density_min)

/-- The `dense blur` condition of `apply_guard_rules` (rule 5). -/
def dense_blur_pred (metrics : OcrMetrics) (guards : OcrGuards) : Bool :=
  decide (metrics.text_density_score ≥ guards.dense_blur_density_min) &&
    decide (metrics.blur_score ≥ guards.dense_blur_min) &&
    decide (metrics.garbage_ratio ≥ guards.dense_blur_penalty_noise_min) &&
    !dense_clean_pred metrics guards

/-- `apply_guard_rules(score, metrics, hints, text, guards)`, with the sequential
updates to `adjusted` and `output_hints` written as explicit state passing. -/
def apply_guard_rules (score : ℚ) (metrics : OcrMetrics) (hints : List String)
    (text : String) (guards : OcrGuards) : ℚ × List String :=
  let is_clean_text := is_clean_text_pred metrics text guards
  let adjusted1 := if is_clean_text then max score guards.clean_text_floor else score
  let output_hints1 :=
    if is_clean_text && decide (metrics.text_density_score ≥ guards.hint_suppress_density_min)
    then hints.filter fun h =>
      !(h == "Image appears blurry" || h == "Low contrast detected")
    else hints
  let clean_proxy := clean_proxy_pred metrics guards
  let adjusted2 := if clean_proxy then max adjusted1 guards.clean_proxy_floor else adjusted1
  let sparse_clean :=
    clean_proxy && decide (metrics.text_density_score ≤ guards.sparse_clean_density_max)
  let adjusted3 := if sparse_clean then adjusted2 + guards.sparse_clean_bonus else adjusted2
  let dense_clean := dense_clean_pred metrics guards
  let adjusted4 := if dense_clean then adjusted3 + guards.dense_clean_bonus else adjusted3
  let adjusted5 :=
    if dense_blur_pred metrics guards then adjusted4 - guards.dense_blur_penalty
    else adjusted4
  (round2 (clamp01 adjusted5), output_hints1)

/-! ## worker/orchestrator/router.py

A job descriptor is an arbitrary string-to-string mapping; `resolve_executor`
returns the route tag (`"ocr"` or `"transcription"`); the executor function paired
with it is not modelled. -/

/-- `OCR_EXTS`. -/
def OCR_EXTS : List String :=
  [".pdf", ".png", ".jpg", ".jpeg", ".webp", ".tif", ".tiff"]

/-- Index of the last occurrence of `c` in `cs`. -/
def rfindIdx : List Char → Char → Option Nat
  | [], _ => none
  | x :: xs, c =>
    match rfindIdx xs c with
    | some j => some (j + 1)
    | none => if x = c then some 0 else none

/-- The extension component of CPython `posixpath.splitext(p)`: the suffix from the
last dot, provided that dot lies after the last path separator and the base name is
not made of leading dots only. -/
def splitextExt (p : String) : String :=
  match rfindIdx p.data '.' with
  | none => ""
  | some dotIndex =>
    let sepIndex : Int :=
      match rfindIdx p.data '/' with
      | some i => (i : Int)
      | none => -1
    if sepIndex < (dotIndex : Int) &&
        (List.range p.data.length).any (fun k =>
          decide (sepIndex < (k : Int)) && decide (k < dotIndex) &&
            !(p.data.getD k '.' == '.'))
    then ⟨p.data.drop dotIndex⟩
    else ""

/-- `looks_like_ocr_input(job)`. -/
def looks_like_ocr_input (job : Record) : Bool :=
  let filename := pyStrip (pyOr (getField job "filename") "")
  if filename = "" then false
  else OCR_EXTS.contains (pyLower (splitextExt filename))

/-- The `job.get("job_type") or job.get("type") or ""` routing hint. -/
def jobTypeRaw (job : Record) : String :=
  pyOr (getField job "job_type") (pyOr (getField job "type") "")

/-- `resolve_executor(job)`, reduced to the route tag it selects. -/
def resolve_executor (job : Record) : String :=
  let source := pyLower (pyOr (getField job "source") "")
  let job_type := pyUpper (jobTypeRaw job)
  if source == "ocr" || job_type == "OCR" || looks_like_ocr_input job then "ocr"
  else "transcription"

/-- The extension of the job's stripped filename, as the router computes it before
lower-casing it. -/
def jobFileExt (job : Record) : String :=
  splitextExt (pyStrip (pyOr (getField job "filename") ""))

/-! ## Character and string normalization lemmas -/

theorem toNat_ofNat_valid (n : ℕ) (h : n.isValidChar) : (Char.ofNat n).toNat = n := by
  unfold Char.ofNat
  rw [dif_pos h]
  rfl

theorem char_toNat_inj {c d : Char} (h : c.toNat = d.toNat) : c = d :=
  Char.eq_of_val_eq (UInt32.eq_of_toBitVec_eq (BitVec.eq_of_toNat_eq h))

theorem isWhitespace_toNat (c : Char) :
    c.isWhitespace = true ↔ (c.toNat = 32 ∨ c.toNat = 9 ∨ c.toNat = 13 ∨ c.toNat = 10) := by
  unfold Char.isWhitespace
  simp only [Bool.or_eq_true, decide_eq_true_eq]
  constructor
  · rintro (((h | h) | h) | h) <;> subst h <;> simp [Char.toNat]
  · rintro (h | h | h | h)
    · exact Or.inl (Or.inl (Or.inl (char_toNat_inj h)))
    · exact Or.inl (Or.inl (Or.inr (char_toNat_inj h)))
    · exact Or.inl (Or.inr (char_toNat_inj h))
    · exact Or.inr (char_toNat_inj h)

theorem toUpper_toUpper (c : Char) : c.toUpper.toUpper = c.toUpper := by
  unfold Char.toUpper
  by_cases h : c.toNat ≥ 97 ∧ c.toNat ≤ 122
  · rw [if_pos h]
    have hv : (c.toNat - 32).isValidChar := Or.inl (by omega)
    have ht : (Char.ofNat (c.toNat - 32)).toNat = c.toNat - 32 := toNat_ofNat_valid _ hv
    rw [ht, if_neg (by omega)]
  · rw [if_neg h, if_neg h]

theorem isWhitespace_toUpper (c : Char) : c.toUpper.isWhitespace = c.isWhitespace := by
  unfold Char.toUpper
  by_cases h : c.toNat ≥ 97 ∧ c.toNat ≤ 122
  · rw [if_pos h]
    have hv : (c.toNat - 32).isValidChar := Or.inl (by omega)
    have ht : (Char.ofNat (c.toNat - 32)).toNat = c.toNat - 32 := toNat_ofNat_valid _ hv
    have h1 : (Char.ofNat (c.toNat - 32)).isWhitespace = false := by
      rw [← Bool.not_eq_true]
      intro hw
      rcases (isWhitespace_toNat _).mp hw with hx | hx | hx | hx <;> rw [ht] at hx <;> omega
    have h2 : c.isWhitespace = false := by
      rw [← Bool.not_eq_true]
      intro hw
      rcases (isWhitespace_toNat _).mp hw with hx | hx | hx | hx <;> omega
    rw [h1, h2]
  · rw [if_neg h]

theorem pyUpper_pyUpper (s : String) : pyUpper (pyUpper s) = pyUpper s := by
  unfold pyUpper
  apply congrArg String.mk
  rw [List.map_map]
  exact List.map_congr_left fun c _ => toUpper_toUpper c

theorem dropWhile_cons_false {p : Char → Bool} {c : Char} {t : List Char}
    (h : p c = false) : List.dropWhile p (c :: t) = c :: t := by
  rw [List.dropWhile_cons, if_neg (by simp [h])]

theorem dropWhile_head_false {p : Char → Bool} :
    ∀ {l : List Char} {c : Char} {t : List Char},
      List.dropWhile p l = c :: t → p c = false := by
  intro l
  induction l with
  | nil => intro c t h; exact absurd h (by simp)
  | cons a l ih =>
    intro c t h
    rw [List.dropWhile_cons] at h
    by_cases ha : p a = true
    · rw [if_pos ha] at h
      exact ih h
    · rw [if_neg ha] at h
      have hc : c = a := (List.cons.injEq .. ▸ h).1.symm
      rw [hc]
      exact Bool.not_eq_true _ ▸ ha

/-- The list computation underlying `pyStrip`. -/
def stripL (l : List Char) : List Char :=
  ((l.dropWhile Char.isWhitespace).reverse.dropWhile Char.isWhitespace).reverse

theorem pyStrip_eq_stripL (s : String) : pyStrip s = ⟨stripL s.data⟩ :=
  rfl

theorem stripL_idem (l : List Char) : stripL (stripL l) = stripL l := by
  unfold stripL
  cases hA : l.dropWhile Char.isWhitespace with
  | nil => simp
  | cons c t =>
    have hc : c.isWhitespace = false := dropWhile_head_false hA
    have hmain :
        List.dropWhile Char.isWhitespace (t.reverse ++ [c]) =
          List.dropWhile Char.isWhitespace t.reverse ++ [c] := by
      rw [List.dropWhile_append]
      by_cases he : (List.dropWhile Char.isWhitespace t.reverse).isEmpty = true
      · rw [if_pos he, dropWhile_cons_false hc]
        simp only [List.isEmpty_iff] at he
        rw [he, List.nil_append]
      · rw [if_neg he]
    rw [List.reverse_cons, hmain, List.reverse_append]
    simp only [List.reverse_cons, List.reverse_nil, List.nil_append, List.singleton_append]
    rw [dropWhile_cons_false hc, List.reverse_cons, List.reverse_reverse]
    have hfix :
        List.dropWhile Char.isWhitespace
            (List.dropWhile Char.isWhitespace t.reverse ++ [c]) =
          List.dropWhile Char.isWhitespace t.reverse ++ [c] := by
      cases hz : List.dropWhile Char.isWhitespace t.reverse with
      | nil => rw [List.nil_append]; exact dropWhile_cons_false hc
      | cons z zs =>
        rw [List.cons_append]
        exact dropWhile_cons_false (dropWhile_head_false hz)
    rw [hfix, List.reverse_append]
    simp only [List.reverse_cons, List.reverse_nil, List.nil_append, List.singleton_append]

theorem stripL_map_toUpper (l : List Char) :
    stripL (l.map Char.toUpper) = (stripL l).map Char.toUpper := by
  unfold stripL
  have hws : (Char.isWhitespace ∘ Char.toUpper) = Char.isWhitespace := by
    funext c
    exact isWhitespace_toUpper c
  rw [List.dropWhile_map, hws, ← List.map_reverse, List.dropWhile_map, hws,
    ← List.map_reverse]

theorem pyStrip_pyStrip (s : String) : pyStrip (pyStrip s) = pyStrip s := by
  rw [pyStrip_eq_stripL s, pyStrip_eq_stripL]
  exact congrArg String.mk (stripL_idem s.data)

theorem pyStrip_pyUpper (s : String) : pyStrip (pyUpper s) = pyUpper (pyStrip s) := by
  rw [pyStrip_eq_stripL, pyStrip_eq_stripL]
  unfold pyUpper
  exact congrArg String.mk (stripL_map_toUpper s.data)

theorem normStatus_some (s : String) :
    normStatus (some s) =
      if pyUpper (pyStrip s) = "" then none else some (pyUpper (pyStrip s)) :=
  rfl

theorem normStatus_idem {x : Option String} {u : String} (h : normStatus x = some u) :
    normStatus (some u) = some u := by
  cases x with
  | none => simp [normStatus] at h
  | some s =>
    rw [normStatus_some] at h
    by_cases he : pyUpper (pyStrip s) = ""
    · rw [if_pos he] at h
      exact absurd h (by simp)
    · rw [if_neg he] at h
      have hu : u = pyUpper (pyStrip s) := by
        injection h with h
        exact h.symm
      have hfix : pyUpper (pyStrip u) = u := by
        rw [hu, pyStrip_pyUpper, pyStrip_pyStrip, pyUpper_pyUpper]
      rw [normStatus_some, hfix, if_neg (hu ▸ he)]

/-! ## Hash record lemmas -/

theorem getField_setField_self (rec : Record) (f v : String) :
    getField (setField rec f v) f = some v := by
  induction rec with
  | nil => simp [setField, getField]
  | cons p rest ih =>
    by_cases h : p.1 = f
    · simp [setField, getField, h]
    · simp only [setField, h, if_false]
      simpa [getField, h] using ih

theorem getField_setField_ne (rec : Record) {f g : String} (v : String) (h : g ≠ f) :
    getField (setField rec f v) g = getField rec g := by
  induction rec with
  | nil =>
    simp only [setField, getField]
    rw [if_neg (fun hh => h hh.symm)]
  | cons p rest ih =>
    by_cases hp : p.1 = f
    · simp only [setField, hp, if_true]
      simp only [getField]
      rw [if_neg (fun hh => h hh.symm), if_neg (hp ▸ fun hh => h hh.symm)]
    · simp only [setField, hp, if_false]
      simp only [getField]
      by_cases hg : p.1 = g
      · rw [if_pos hg, if_pos hg]
      · rw [if_neg hg, if_neg hg]
        exact ih

theorem getField_eq_none {m : Record} {f : String} (h : getField m f = none) :
    ∀ p ∈ m, p.1 ≠ f := by
  induction m with
  | nil => intro p hp; exact absurd hp (List.not_mem_nil p)
  | cons q rest ih =>
    intro p hp
    simp only [getField] at h
    by_cases hq : q.1 = f
    · rw [if_pos hq] at h
      exact absurd h (by simp)
    · rw [if_neg hq] at h
      rcases List.mem_cons.mp hp with hpq | hpr
      · rw [hpq]; exact hq
      · exact ih h p hpr

theorem hset_cons (rec : Record) (k w : String) (rest : Record) :
    hset rec ((k, w) :: rest) = hset (setField rec k w) rest :=
  rfl

theorem getField_hset_none {m : Record} {f : String} (h : getField m f = none) :
    ∀ rec : Record, getField (hset rec m) f = getField rec f := by
  induction m with
  | nil => intro rec; rfl
  | cons q rest ih =>
    intro rec
    simp only [getField] at h
    by_cases hq : q.1 = f
    · rw [if_pos hq] at h
      exact absurd h (by simp)
    · rw [if_neg hq] at h
      rw [show (q :: rest : Record) = (q.1, q.2) :: rest from rfl, hset_cons]
      rw [ih h (setField rec q.1 q.2)]
      exact getField_setField_ne rec q.2 (fun hh => hq hh.symm)

theorem mem_keys_of_getField_some {m : Record} {f w : String}
    (h : getField m f = some w) : f ∈ m.map Prod.fst := by
  induction m with
  | nil => simp [getField] at h
  | cons r rr ihr =>
    simp only [getField] at h
    by_cases hr : r.1 = f
    · rw [List.map_cons]
      exact hr ▸ List.mem_cons_self _ _
    · rw [if_neg hr] at h
      rw [List.map_cons]
      exact List.mem_cons_of_mem _ (ihr h)

theorem getField_hset_some {m : Record} {f v : String}
    (hn : (m.map Prod.fst).Nodup) (h : getField m f = some v) :
    ∀ rec : Record, getField (hset rec m) f = some v := by
  induction m with
  | nil => intro rec; exact absurd h (by simp [getField])
  | cons q rest ih =>
    intro rec
    simp only [getField] at h
    rw [List.map_cons, List.nodup_cons] at hn
    by_cases hq : q.1 = f
    · rw [if_pos hq] at h
      have hrest : getField rest f = none := by
        cases hg : getField rest f with
        | none => rfl
        | some w => exact absurd (hq ▸ mem_keys_of_getField_some hg) hn.1
      rw [show (q :: rest : Record) = (q.1, q.2) :: rest from rfl, hset_cons]
      rw [getField_hset_none hrest (setField rec q.1 q.2)]
      injection h with h
      rw [← h, ← hq]
      exact getField_setField_self rec q.1 q.2
    · rw [if_neg hq] at h
      rw [show (q :: rest : Record) = (q.1, q.2) :: rest from rfl, hset_cons]
      exact ih hn.2 h (setField rec q.1 q.2)

/-! ## Status machine helper lemmas -/

theorem guarded_hset_no_status {rec m : Record}
    (h : normStatus (getField m "status") = none) :
    guarded_hset rec m = (hset rec m, ⟨true, none, none⟩) := by
  unfold guarded_hset
  rw [h]

theorem guarded_hset_blocked {rec m : Record} {t : String}
    (h : normStatus (getField m "status") = some t)
    (hb : is_allowed_transition (statusN rec) (some t) = false) :
    guarded_hset rec m = (rec, ⟨false, statusN rec, some t⟩) := by
  unfold guarded_hset
  rw [h]
  simp only [statusN] at hb
  simp [hb, statusN]

theorem guarded_hset_allowed {rec m : Record} {t : String}
    (h : normStatus (getField m "status") = some t)
    (hb : is_allowed_transition (statusN rec) (some t) = true) :
    guarded_hset rec m = (hset rec m, ⟨true, statusN rec, some t⟩) := by
  unfold guarded_hset
  rw [h]
  simp only [statusN] at hb
  simp [hb, statusN]

theorem statusN_hset_no_status {m : Record} (rec : Record)
    (h : getField m "status" = none) : statusN (hset rec m) = statusN rec := by
  unfold statusN
  rw [getField_hset_none h]

theorem statusN_hset_status {m : Record} (rec : Record) {v : String}
    (hn : (m.map Prod.fst).Nodup) (h : getField m "status" = some v) :
    statusN (hset rec m) = normStatus (some v) := by
  unfold statusN
  rw [getField_hset_some hn h]

/-- One guarded write leaves the stored status unchanged or moves it along an edge
that `is_allowed_transition` admitted. -/
theorem stepRec_path (rec m : Record) (hm : goodMapping m) :
    statusN (stepRec rec m) = statusN rec ∨
      (∃ t, statusN (stepRec rec m) = some t ∧
        is_allowed_transition (statusN rec) (some t) = true) := by
  cases hs : normStatus (getField m "status") with
  | none =>
    left
    cases hf : getField m "status" with
    | none =>
      rw [show stepRec rec m = hset rec m by rw [stepRec, guarded_hset_no_status hs]]
      exact statusN_hset_no_status rec hf
    | some v =>
      exfalso
      have hok := hm.2
      unfold statusFieldOk at hok
      rw [hf] at hok
      have hok2 : (normStatus (some v)).isSome = true := hok
      rw [hf] at hs
      rw [hs] at hok2
      simp [Option.isSome] at hok2
  | some t =>
    cases hb : is_allowed_transition (statusN rec) (some t) with
    | false =>
      left
      rw [show stepRec rec m = rec by rw [stepRec, guarded_hset_blocked hs hb]]
    | true =>
      right
      refine ⟨t, ?_, hb⟩
      cases hf : getField m "status" with
      | none => rw [hf] at hs; simp [normStatus] at hs
      | some v =>
        rw [show stepRec rec m = hset rec m by rw [stepRec, guarded_hset_allowed hs hb]]
        rw [statusN_hset_status rec hm.1 hf, ← hf, hs]

/-- The stored normalized status is a fixed point of `_norm`. -/
theorem statusN_norm_fixed {rec : Record} {t : String} (h : statusN rec = some t) :
    normStatus (some t) = some t :=
  normStatus_idem h

/-- A guarded write with a well-formed mapping cannot move the stored status out of
a terminal status. -/
theorem stepRec_terminal (rec m : Record) (hm : goodMapping m) (T : String)
    (hT : T ∈ terminalStatuses) (hs : statusN rec = some T) :
    statusN (stepRec rec m) = some T := by
  rcases stepRec_path rec m hm with h | ⟨t, ht, hall⟩
  · rw [h, hs]
  · have himg : normStatus (some t) = some t := statusN_norm_fixed ht
    simp only [terminalStatuses, List.mem_cons, List.not_mem_nil, or_false] at hT
    unfold is_allowed_transition at hall
    rcases hT with rfl | rfl | rfl
    · rw [hs] at hall
      simp only [himg,
        show normStatus (some JOB_STATUS_COMPLETED) = some JOB_STATUS_COMPLETED from by decide,
        show allowedRow (some JOB_STATUS_COMPLETED) = [JOB_STATUS_COMPLETED] from by decide,
        List.contains_cons, List.contains_nil, Bool.or_false, beq_iff_eq] at hall
      rw [ht, hall]
    · rw [hs] at hall
      simp only [himg,
        show normStatus (some JOB_STATUS_FAILED) = some JOB_STATUS_FAILED from by decide,
        show allowedRow (some JOB_STATUS_FAILED) = [JOB_STATUS_FAILED] from by decide,
        List.contains_cons, List.contains_nil, Bool.or_false, beq_iff_eq] at hall
      rw [ht, hall]
    · rw [hs] at hall
      simp only [himg,
        show normStatus (some JOB_STATUS_CANCELLED) = some JOB_STATUS_CANCELLED from by decide,
        show allowedRow (some JOB_STATUS_CANCELLED) = [JOB_STATUS_CANCELLED] from by decide,
        List.contains_cons, List.contains_nil, Bool.or_false, beq_iff_eq] at hall
      rw [ht, hall]

/-- Unfolding `runWrites` one write at a time. -/
theorem runWrites_take_succ (ms : List Record) (i : ℕ) (h : i < ms.length) :
    runWrites (ms.take (i + 1)) = stepRec (runWrites (ms.take i)) ms[i] := by
  rw [← List.take_concat_get ms i h, List.concat_eq_append]
  unfold runWrites
  rw [List.foldl_append]
  rfl

/-! ## Claim theorems: status machine (C1, C2, C10) -/

/-- Claim C2: `guarded_hset(key, mapping, context, request_id)` writes the mapping
unconditionally and returns `(ok=true, from=null, to=null)` when the mapping has no
non-empty status field; when the `(current, target)` transition is not allowed it
returns `(ok=false, from=current, to=target)` leaving the stored record completely
unchanged; otherwise it writes the mapping and returns `(ok=true, from=current,
to=target)`. -/
theorem C2_guarded_hset_contract (rec m : Record) :
    (normStatus (getField m "status") = none →
      guarded_hset rec m = (hset rec m, ⟨true, none, none⟩))
    ∧ (∀ t, normStatus (getField m "status") = some t →
        is_allowed_transition (statusN rec) (some t) = false →
          guarded_hset rec m = (rec, ⟨false, statusN rec, some t⟩))
    ∧ (∀ t, normStatus (getField m "status") = some t →
        is_allowed_transition (statusN rec) (some t) = true →
          guarded_hset rec m = (hset rec m, ⟨true, statusN rec, some t⟩)) :=
  ⟨fun h => guarded_hset_no_status h,
   fun _ h hb => guarded_hset_blocked h hb,
   fun _ h hb => guarded_hset_allowed h hb⟩

/-- Witness for C2: a write of `PROCESSING` over a stored `COMPLETED` is blocked and
leaves the record untouched. -/
theorem C2_guarded_hset_contract_witness :
    guarded_hset [("status", "COMPLETED")] [("status", "PROCESSING"), ("progress", "50")] =
      ([("status", "COMPLETED")], ⟨false, some "COMPLETED", some "PROCESSING"⟩) := by
  have h :=
    (C2_guarded_hset_contract [("status", "COMPLETED")]
        [("status", "PROCESSING"), ("progress", "50")]).2.1 "PROCESSING"
      (by decide) (by decide)
  rw [h]
  decide

/-- Claim C1 (counterexample to the claim as stated): from an unset record the
guarded writes `{status: "COMPLETED"}`, `{status: " "}`, `{status: "PROCESSING"}`
are all accepted (`ok=true`): the stored status reaches the terminal `COMPLETED`,
is then overwritten to an unset status by the whitespace status write, and finally
becomes `PROCESSING` — so a guarded write that changes the stored status away from a
terminal state is not blocked, and the status sequence is not a path of the §4.3
graph. -/
theorem C1_counterexample :
    statusN (runWrites [[("status", "COMPLETED")]]) = some "COMPLETED"
    ∧ (guarded_hset (runWrites [[("status", "COMPLETED")]]) [("status", " ")]).2.ok = true
    ∧ statusN (runWrites [[("status", "COMPLETED")], [("status", " ")]]) = none
    ∧ statusN
        (runWrites [[("status", "COMPLETED")], [("status", " ")], [("status", "PROCESSING")]])
        = some "PROCESSING" := by
  decide

/-- Claim C1 (amended): for a sequence of guarded writes starting from an unset
record in which every mapping is a dict that either lacks a `status` field or whose
`status` value does not normalize to empty, every consecutive pair of stored
normalized statuses is a step of the allowed-transition graph (unchanged, or an
edge admitted by `is_allowed_transition`), and once the stored status is terminal
(`COMPLETED`, `FAILED`, `CANCELLED`) every later write preserves it: terminal states
are absorbing. -/
theorem C1_guarded_writes_follow_graph (ms : List Record)
    (hgood : ∀ m ∈ ms, goodMapping m) (i : ℕ) (hi : i < ms.length) :
    pathStepB (statusN (runWrites (ms.take i))) (statusN (runWrites (ms.take (i + 1)))) = true
    ∧ ∀ T ∈ terminalStatuses, statusN (runWrites (ms.take i)) = some T →
        statusN (runWrites (ms.take (i + 1))) = some T := by
  have hm : goodMapping ms[i] := hgood ms[i] (List.getElem_mem hi)
  rw [runWrites_take_succ ms i hi]
  constructor
  · rcases stepRec_path (runWrites (ms.take i)) ms[i] hm with h | ⟨t, ht, hb⟩
    · rw [h]
      simp [pathStepB]
    · rw [ht]
      simp [pathStepB, hb]
  · intro T hT hsT
    exact stepRec_terminal _ _ hm T hT hsT

/-- Witness for C1: the two-write sequence `QUEUED`, `PROCESSING` takes an allowed
step at index 1. -/
theorem C1_guarded_writes_follow_graph_witness :
    pathStepB (statusN (runWrites ([[("status", "QUEUED")], [("status", "PROCESSING")]].take 1)))
      (statusN (runWrites ([[("status", "QUEUED")], [("status", "PROCESSING")]].take 2))) =
      true :=
  (C1_guarded_writes_follow_graph [[("status", "QUEUED")], [("status", "PROCESSING")]]
    (by decide) 1 (by decide)).1

/-- `WAITING_APPROVAL` and `APPROVED` appear in no row of the `_ALLOWED` table. -/
theorem allowedRow_no_approval (s : Option String) (x : String)
    (hx : x = "WAITING_APPROVAL" ∨ x = "APPROVED") : (allowedRow s).contains x = false := by
  unfold allowedRow
  rcases hx with rfl | rfl <;> split_ifs <;> decide

/-- No current status admits a transition to `WAITING_APPROVAL` or `APPROVED`. -/
theorem is_allowed_transition_no_approval (current : Option String) (x : String)
    (hx : x = "WAITING_APPROVAL" ∨ x = "APPROVED") :
    is_allowed_transition current (some x) = false := by
  rcases hx with rfl | rfl
  · exact allowedRow_no_approval (normStatus current) _ (Or.inl rfl)
  · exact allowedRow_no_approval (normStatus current) _ (Or.inr rfl)

/-- Claim C10: the guarded writer can never set `WAITING_APPROVAL` or `APPROVED`:
for every current status (unset or arbitrary), `is_allowed_transition` rejects both
targets, and `guarded_hset` blocks any mapping whose status normalizes to one of
them, leaving the record unchanged. -/
theorem C10_approval_states_never_writable :
    (∀ current : Option String,
      is_allowed_transition current (some "WAITING_APPROVAL") = false ∧
        is_allowed_transition current (some "APPROVED") = false)
    ∧ (∀ (rec m : Record) (t : String), (t = "WAITING_APPROVAL" ∨ t = "APPROVED") →
        normStatus (getField m "status") = some t →
        (guarded_hset rec m).1 = rec ∧ (guarded_hset rec m).2.ok = false) := by
  constructor
  · intro current
    exact ⟨is_allowed_transition_no_approval current _ (Or.inl rfl),
           is_allowed_transition_no_approval current _ (Or.inr rfl)⟩
  · intro rec m t ht h
    have hb : is_allowed_transition (statusN rec) (some t) = false :=
      is_allowed_transition_no_approval _ _ ht
    rw [guarded_hset_blocked h hb]
    exact ⟨rfl, rfl⟩

/-- Witness for C10: a `WAITING_APPROVAL` write over a `PROCESSING` record is
blocked with the record unchanged. -/
theorem C10_approval_states_never_writable_witness :
    (guarded_hset [("status", "PROCESSING")] [("status", "WAITING_APPROVAL")]).1 =
        [("status", "PROCESSING")]
      ∧ (guarded_hset [("status", "PROCESSING")] [("status", "WAITING_APPROVAL")]).2.ok =
        false :=
  C10_approval_states_never_writable.2 [("status", "PROCESSING")]
    [("status", "WAITING_APPROVAL")] "WAITING_APPROVAL" (Or.inl rfl) (by decide)

/-! ## Claim theorems: error taxonomy and recovery policy (C3, C4, C5, C9) -/

/-- Every classification lands in the closed code set. -/
theorem classify_error_code_mem (exc : PyException) :
    (classify_error exc).1 ∈
      ["INFRA_GCS", "RATE_LIMIT_EXCEEDED", "MEDIA_DECODE_FAILED", "INPUT_NOT_FOUND",
        "INFRA_REDIS", "PROCESSING_FAILED"] := by
  unfold classify_error
  dsimp only
  split_ifs <;> simp

/-- Claim C3: `classify_error` is total into the closed code set, with the match
rules applied in the fixed order GCS, rate-limit, media, missing-file, KV, fallback;
in particular the four literal failures classify as the spec states, and the
`INFRA_GCS` message contains "Storage service". -/
theorem C3_classify_error_cases :
    (∀ exc : PyException, (classify_error exc).1 ∈
      ["INFRA_GCS", "RATE_LIMIT_EXCEEDED", "MEDIA_DECODE_FAILED", "INPUT_NOT_FOUND",
        "INFRA_REDIS", "PROCESSING_FAILED"])
    ∧ (classify_error
        ⟨"HTTPSConnectionPool host=storage.googleapis.com: Connection aborted",
          false, false⟩).1 = "INFRA_GCS"
    ∧ strContains
        (classify_error
          ⟨"HTTPSConnectionPool host=storage.googleapis.com: Connection aborted",
            false, false⟩).2 "Storage service" = true
    ∧ (classify_error ⟨"Connection closed by server", false, true⟩).1 = "INFRA_REDIS"
    ∧ (classify_error ⟨"no such file", true, false⟩).1 = "INPUT_NOT_FOUND"
    ∧ (classify_error ⟨"some unknown failure", false, false⟩).1 = "PROCESSING_FAILED" :=
  ⟨classify_error_code_mem, by decide, by decide, by decide, by decide, by decide⟩

/-- Claim C4 (counterexample to the claim as stated): the claim asserts
`retry_allowed = attempts < budget` and `next_attempt = attempts` when not retrying
for every integer `attempts`; at `attempts = -1` with budgets `(0,0,0)` the code
clamps the attempt count to `0`, so retry is denied although `-1 < 0`, and the
reported attempt is `0`, not `-1`. -/
theorem C4_counterexample :
    (decide_recovery_action "INFRA_REDIS" (-1) 0 0 0).retry_allowed = false
    ∧ ((-1 : ℤ) < max 0 (0 : ℤ))
    ∧ (decide_recovery_action "INFRA_REDIS" (-1) 0 0 0).recovery_attempt = 0 := by
  refine ⟨by decide, by decide, by decide⟩

/-- `classify_recovery_reason` is insensitive to a prior upper-casing of the code. -/
theorem classify_recovery_reason_upper (code : String) :
    classify_recovery_reason (pyUpper code) = classify_recovery_reason code := by
  unfold classify_recovery_reason
  rw [pyUpper_pyUpper]

/-- Claim C4 (amended to non-negative `attempts`, the only ones the worker produces):
`decide_recovery_action` selects the budget of the code's reason clamped to be
non-negative, allows retry exactly when `attempts < budget`, chooses
`retry_with_backoff` or `fail_fast_dlq` accordingly, reports `next_attempt =
attempts + 1` when retrying and `attempts` otherwise, and reports `max_attempts =
budget`; the two literal scenarios of the spec evaluate as stated. -/
theorem C4_decide_recovery_action_spec (code : String) (attempts bt bm bd : ℤ)
    (h : 0 ≤ attempts) :
    (decide_recovery_action code attempts bt bm bd).recovery_reason =
        classify_recovery_reason code
    ∧ (decide_recovery_action code attempts bt bm bd).recovery_max_attempts =
        (if classify_recovery_reason code = "TRANSIENT_INFRA" then max 0 bt
         else if classify_recovery_reason code = "INPUT_MEDIA" then max 0 bm
         else max 0 bd)
    ∧ ((decide_recovery_action code attempts bt bm bd).retry_allowed = true ↔
        attempts < (decide_recovery_action code attempts bt bm bd).recovery_max_attempts)
    ∧ (decide_recovery_action code attempts bt bm bd).recovery_action =
        (if (decide_recovery_action code attempts bt bm bd).retry_allowed
         then "retry_with_backoff" else "fail_fast_dlq")
    ∧ (decide_recovery_action code attempts bt bm bd).recovery_attempt =
        (if (decide_recovery_action code attempts bt bm bd).retry_allowed
         then attempts + 1 else attempts)
    ∧ decide_recovery_action "INFRA_REDIS" 0 2 0 0 =
        ⟨"retry_with_backoff", "TRANSIENT_INFRA", 1, 2, true⟩
    ∧ decide_recovery_action "PROCESSING_FAILED" 0 1 0 0 =
        ⟨"fail_fast_dlq", "UNKNOWN_OR_FATAL", 0, 0, false⟩ := by
  have hatt : max (0 : ℤ) attempts = attempts := max_eq_right h
  unfold decide_recovery_action
  simp only [classify_recovery_reason_upper, hatt]
  refine ⟨by trivial, by trivial, by simp, by trivial, by trivial, by decide, by decide⟩

/-- Witness for C4: `(INFRA_GCS, attempts=1, budgets=(2,0,0))` still retries and the
allowed condition matches `attempts < max_attempts`. -/
theorem C4_decide_recovery_action_spec_witness :
    (decide_recovery_action "INFRA_GCS" 1 2 0 0).recovery_reason =
        classify_recovery_reason "INFRA_GCS"
    ∧ (decide_recovery_action "INFRA_GCS" 1 2 0 0).recovery_max_attempts =
        (if classify_recovery_reason "INFRA_GCS" = "TRANSIENT_INFRA" then max 0 2
         else if classify_recovery_reason "INFRA_GCS" = "INPUT_MEDIA" then max 0 0
         else max 0 (0 : ℤ)) :=
  ⟨(C4_decide_recovery_action_spec "INFRA_GCS" 1 2 0 0 (by decide)).1,
   (C4_decide_recovery_action_spec "INFRA_GCS" 1 2 0 0 (by decide)).2.1⟩

/-- The retry budget reported by the recovery policy does not depend on `attempts`. -/
theorem recovery_max_attempts_const (code : String) (a a2 bt bm bd : ℤ) :
    (decide_recovery_action code a bt bm bd).recovery_max_attempts =
      (decide_recovery_action code a2 bt bm bd).recovery_max_attempts :=
  rfl

/-- `retry_allowed` is the clamped comparison against the reported budget. -/
theorem recovery_retry_allowed_eq (code : String) (a bt bm bd : ℤ) :
    (decide_recovery_action code a bt bm bd).retry_allowed =
      decide (max 0 a < (decide_recovery_action code a bt bm bd).recovery_max_attempts) :=
  rfl

/-- Claim C5: the recovery policy is monotone in `attempts`: once retry is denied at
attempt count `k`, it is denied at every larger attempt count (same code, budgets). -/
theorem C5_recovery_monotone (code : String) (bt bm bd k k2 : ℤ) (hk : k < k2)
    (hden : (decide_recovery_action code k bt bm bd).retry_allowed = false) :
    (decide_recovery_action code k2 bt bm bd).retry_allowed = false := by
  rw [recovery_retry_allowed_eq] at hden ⊢
  rw [← recovery_max_attempts_const code k k2 bt bm bd]
  simp only [decide_eq_false_iff_not, not_lt] at hden ⊢
  omega

/-- Witness for C5: with the transient budget 2, `INFRA_REDIS` is denied at attempt
2, hence also at attempt 5. -/
theorem C5_recovery_monotone_witness :
    (decide_recovery_action "INFRA_REDIS" 5 2 0 0).retry_allowed = false :=
  C5_recovery_monotone "INFRA_REDIS" 2 0 0 2 5 (by decide) (by decide)

/-- Claim C9: on every code `classify_error` can produce and every non-negative
attempt count, with non-negative configured budgets, the worker loop's local
`should_retry` returns exactly the `(retry_allowed, budget)` pair of the shared
recovery policy's `should_retry` on the same budgets. -/
theorem C9_worker_loop_matches_recovery_policy (exc : PyException)
    (attempts bt bm bd : ℤ) (ha : 0 ≤ attempts) (h1 : 0 ≤ bt) (h2 : 0 ≤ bm)
    (h3 : 0 ≤ bd) :
    worker_should_retry (classify_error exc).1 attempts bt bm bd =
      recovery_should_retry (classify_error exc).1 attempts (bt, bm, bd) := by
  have hmem := classify_error_code_mem exc
  generalize (classify_error exc).1 = code at hmem
  simp only [List.mem_cons, List.not_mem_nil, or_false] at hmem
  rcases hmem with rfl | rfl | rfl | rfl | rfl | rfl
  · show (decide (attempts < bt), bt) = (decide (max 0 attempts < max 0 bt), max 0 bt)
    rw [max_eq_right ha, max_eq_right h1]
  · show (decide (attempts < bt), bt) = (decide (max 0 attempts < max 0 bt), max 0 bt)
    rw [max_eq_right ha, max_eq_right h1]
  · show (decide (attempts < bm), bm) = (decide (max 0 attempts < max 0 bm), max 0 bm)
    rw [max_eq_right ha, max_eq_right h2]
  · show (decide (attempts < bm), bm) = (decide (max 0 attempts < max 0 bm), max 0 bm)
    rw [max_eq_right ha, max_eq_right h2]
  · show (decide (attempts < bt), bt) = (decide (max 0 attempts < max 0 bt), max 0 bt)
    rw [max_eq_right ha, max_eq_right h1]
  · show (decide (attempts < bd), bd) = (decide (max 0 attempts < max 0 bd), max 0 bd)
    rw [max_eq_right ha, max_eq_right h3]

/-- Witness for C9: a decode failure at attempt 0 with budgets `(2, 1, 0)` gets the
same answer from both deciders. -/
theorem C9_worker_loop_matches_recovery_policy_witness :
    worker_should_retry
        (classify_error ⟨"ffmpeg: decoding failed", false, false⟩).1 0 2 1 0 =
      recovery_should_retry
        (classify_error ⟨"ffmpeg: decoding failed", false, false⟩).1 0 (2, 1, 0) :=
  C9_worker_loop_matches_recovery_policy ⟨"ffmpeg: decoding failed", false, false⟩
    0 2 1 0 (by decide) (by decide) (by decide) (by decide)

/-! ## Claim theorems: cancellation (C6) -/

/-- When every call up to the retry budget fails with a retryable transport error,
the retry loop raises that error class. -/
theorem retryGo_all_transport (fn : ℕ → KVReadOutcome) :
    ∀ (remaining idx : ℕ),
      (∀ i, idx ≤ i → i ≤ idx + remaining → fn i = .connError ∨ fn i = .timeoutError) →
      retryGo fn idx remaining = .raisedConn ∨ retryGo fn idx remaining = .raisedTimeout := by
  intro remaining
  induction remaining with
  | zero =>
    intro idx h
    rcases h idx le_rfl (by omega) with he | he <;> simp [retryGo, he]
  | succ r ih =>
    intro idx h
    rcases h idx le_rfl (by omega) with he | he <;> simp only [retryGo, he] <;>
      exact ih (idx + 1) fun i h1 h2 => h i (by omega) (by omega)

/-- If the first `i` calls fail with retryable transport errors and call `i`
succeeds within the retry budget, the loop returns the read value. -/
theorem retryGo_success (fn : ℕ → KVReadOutcome) :
    ∀ (i remaining idx : ℕ) (data : Record), fn (idx + i) = .ok data →
      (∀ j, j < i → fn (idx + j) = .connError ∨ fn (idx + j) = .timeoutError) →
      i ≤ remaining → retryGo fn idx remaining = .value (readCancelState data) := by
  intro i
  induction i with
  | zero =>
    intro remaining idx data hok _ _
    rw [Nat.add_zero] at hok
    cases remaining <;> simp [retryGo, hok]
  | succ i ih =>
    intro remaining idx data hok herr hle
    have h0 : fn idx = .connError ∨ fn idx = .timeoutError := by
      have := herr 0 (Nat.succ_pos i)
      rwa [Nat.add_zero] at this
    cases remaining with
    | zero => omega
    | succ r =>
      have hok2 : fn (idx + 1 + i) = .ok data := by
        rw [show idx + 1 + i = idx + (i + 1) from by omega]
        exact hok
      have herr2 : ∀ j, j < i → fn (idx + 1 + j) = .connError ∨ fn (idx + 1 + j) = .timeoutError := by
        intro j hj
        rw [show idx + 1 + j = idx + (j + 1) from by omega]
        exact herr (j + 1) (by omega)
      rcases h0 with he | he <;> simp only [retryGo, he] <;>
        exact ih r (idx + 1) data hok2 herr2 (by omega)

/-- Claim C6: `is_cancelled` answers `true` exactly when the record it read carries
`cancel_requested = "1"` or an upper-cased status of `CANCELLED`; a read that
succeeds at call `i` after transient failures (within the retry budget) yields
exactly that answer, and when every call up to the budget fails with a transient
connection or timeout error, `is_cancelled` fails open to `false`. -/
theorem C6_is_cancelled_fail_open :
    (∀ data : Record, readCancelState data = true ↔
        (getField data "cancel_requested" = some "1" ∨
          pyUpper (pyOr (getField data "status") "") = "CANCELLED"))
    ∧ (∀ (max_retries : ℕ) (fn : ℕ → KVReadOutcome) (i : ℕ) (data : Record),
        i ≤ max_retries → fn i = .ok data →
        (∀ j, j < i → fn j = .connError ∨ fn j = .timeoutError) →
        is_cancelled max_retries fn = some (readCancelState data))
    ∧ (∀ (max_retries : ℕ) (fn : ℕ → KVReadOutcome),
        (∀ i, i ≤ max_retries → fn i = .connError ∨ fn i = .timeoutError) →
        is_cancelled max_retries fn = some false) := by
  refine ⟨?_, ?_, ?_⟩
  · intro data
    unfold readCancelState
    by_cases hd : data.isEmpty
    · rw [if_pos hd]
      have hnil : data = [] := List.isEmpty_iff.mp hd
      subst hnil
      simp [getField, pyOr, pyUpper]
    · rw [if_neg hd]
      simp
  · intro max_retries fn i data hle hok herr
    unfold is_cancelled run_with_retry
    rw [retryGo_success fn i max_retries 0 data (by simpa using hok)
      (fun j hj => by simpa using herr j hj) hle]
  · intro max_retries fn hall
    unfold is_cancelled run_with_retry
    rcases retryGo_all_transport fn max_retries 0
        (fun i _ h2 => hall i (by omega)) with h | h <;> rw [h]

/-- Witness for C6: two connection failures then a successful read of a cancelled
record within budget 2 gives `some true`. -/
theorem C6_is_cancelled_fail_open_witness :
    is_cancelled 2
        (fun i => if i < 2 then .connError else .ok [("cancel_requested", "1")]) =
      some (readCancelState [("cancel_requested", "1")]) :=
  C6_is_cancelled_fail_open.2.1 2
    (fun i => if i < 2 then .connError else .ok [("cancel_requested", "1")]) 2
    [("cancel_requested", "1")] (by decide) (by decide)
    (fun j hj => by interval_cases j <;> exact Or.inl rfl)

/-! ## Claim theorems: OCR quality guard rules (C7) -/

/-- Claim C7: on starting score `0.91` with metrics `char_conf=0.84, contrast=0.90,
blur=0.86, density=0.95, garbage=0.11` and a stripped text of 400 characters,
`apply_guard_rules` under the default guards returns exactly `0.81`: the dense-clean
predicate fails, the dense-blur penalty fires, and neither clean floor exceeds the
starting score. -/
theorem C7_dense_blur_penalty (text : String) (hlen : (pyStrip text).length = 400)
    (hints : List String) :
    (apply_guard_rules (91 / 100) ⟨84 / 100, 90 / 100, 86 / 100, 95 / 100, 11 / 100⟩
        hints text DEFAULT_GUARDS).1 = 81 / 100
    ∧ dense_clean_pred ⟨84 / 100, 90 / 100, 86 / 100, 95 / 100, 11 / 100⟩
        DEFAULT_GUARDS = false
    ∧ dense_blur_pred ⟨84 / 100, 90 / 100, 86 / 100, 95 / 100, 11 / 100⟩
        DEFAULT_GUARDS = true
    ∧ max (91 / 100 : ℚ) DEFAULT_GUARDS.clean_text_floor = 91 / 100
    ∧ max (91 / 100 : ℚ) DEFAULT_GUARDS.clean_proxy_floor = 91 / 100 := by
  have hclean :
      is_clean_text_pred ⟨84 / 100, 90 / 100, 86 / 100, 95 / 100, 11 / 100⟩ text
        DEFAULT_GUARDS = true := by
    unfold is_clean_text_pred
    rw [hlen]
    norm_num [DEFAULT_GUARDS]
  have hcp :
      clean_proxy_pred ⟨84 / 100, 90 / 100, 86 / 100, 95 / 100, 11 / 100⟩
        DEFAULT_GUARDS = true := by
    norm_num [clean_proxy_pred, DEFAULT_GUARDS]
  have hdc :
      dense_clean_pred ⟨84 / 100, 90 / 100, 86 / 100, 95 / 100, 11 / 100⟩
        DEFAULT_GUARDS = false := by
    norm_num [dense_clean_pred, DEFAULT_GUARDS]
  have hdb :
      dense_blur_pred ⟨84 / 100, 90 / 100, 86 / 100, 95 / 100, 11 / 100⟩
        DEFAULT_GUARDS = true := by
    unfold dense_blur_pred
    rw [hdc]
    norm_num [DEFAULT_GUARDS]
  refine ⟨?_, hdc, hdb, by norm_num [DEFAULT_GUARDS], by norm_num [DEFAULT_GUARDS]⟩
  simp only [apply_guard_rules, hclean, hcp, hdc, hdb]
  norm_num [DEFAULT_GUARDS, round2, clamp01, pyRoundInt]

set_option maxRecDepth 4000 in
/-- Witness for C7: the guard computation on a concrete 400-character text. -/
theorem C7_dense_blur_penalty_witness :
    (apply_guard_rules (91 / 100) ⟨84 / 100, 90 / 100, 86 / 100, 95 / 100, 11 / 100⟩
        [] (String.mk (List.replicate 400 'x')) DEFAULT_GUARDS).1 = 81 / 100 :=
  (C7_dense_blur_penalty (String.mk (List.replicate 400 'x')) (by decide) []).1

/-! ## Claim theorems: router (C8) -/

/-- `looks_like_ocr_input` is exactly extension membership in `OCR_EXTS`: the
empty-filename early return coincides with the empty extension not being listed. -/
theorem looks_like_ocr_input_eq (job : Record) :
    looks_like_ocr_input job = OCR_EXTS.contains (pyLower (jobFileExt job)) := by
  simp only [looks_like_ocr_input, jobFileExt]
  by_cases h : pyStrip (pyOr (getField job "filename") "") = ""
  · rw [if_pos h, h]
    decide
  · rw [if_neg h]

/-- The route is a single boolean test on the three hints. -/
theorem resolve_executor_eq (job : Record) :
    resolve_executor job =
      if (pyLower (pyOr (getField job "source") "") == "ocr" ||
          pyUpper (jobTypeRaw job) == "OCR" ||
          OCR_EXTS.contains (pyLower (jobFileExt job)))
      then "ocr" else "transcription" := by
  simp only [resolve_executor]
  rw [looks_like_ocr_input_eq]

/-- Claim C8: the route of `resolve_executor` is `"ocr"` exactly when the job's
`source` is `"ocr"` (case-insensitively), its `job_type`/`type` is `"OCR"`
(case-insensitively), or the extension of its filename is one of
`.pdf .png .jpg .jpeg .webp .tif .tiff`; it is `"transcription"` otherwise, and it
depends only on the `source` field, the combined `job_type`/`type` value and the
filename extension: two descriptors agreeing there get the same route. -/
theorem C8_router_depends_only_on_hints :
    (∀ job : Record,
      (resolve_executor job = "ocr" ↔
        (pyLower (pyOr (getField job "source") "") = "ocr" ∨
          pyUpper (jobTypeRaw job) = "OCR" ∨
          pyLower (jobFileExt job) ∈ OCR_EXTS))
      ∧ (resolve_executor job = "ocr" ∨ resolve_executor job = "transcription"))
    ∧ (∀ j1 j2 : Record,
        getField j1 "source" = getField j2 "source" →
        jobTypeRaw j1 = jobTypeRaw j2 →
        jobFileExt j1 = jobFileExt j2 →
        resolve_executor j1 = resolve_executor j2) := by
  constructor
  · intro job
    have key : ∀ b : Bool, ((if b then "ocr" else "transcription") = "ocr") ↔ b = true := by
      intro b
      cases b <;> simp
    constructor
    · rw [resolve_executor_eq, key]
      simp only [Bool.or_eq_true, beq_iff_eq, List.contains_iff_exists_mem_beq, beq_iff_eq]
      constructor
      · rintro ((h | h) | ⟨x, hx, he⟩)
        · exact Or.inl h
        · exact Or.inr (Or.inl h)
        · exact Or.inr (Or.inr (by rw [he]; exact hx))
      · rintro (h | h | h)
        · exact Or.inl (Or.inl h)
        · exact Or.inl (Or.inr h)
        · exact Or.inr ⟨_, h, rfl⟩
    · rw [resolve_executor_eq]
      rcases Bool.eq_false_or_eq_true (pyLower (pyOr (getField job "source") "") == "ocr" ||
          pyUpper (jobTypeRaw job) == "OCR" ||
          OCR_EXTS.contains (pyLower (jobFileExt job))) with hb | hb
      · rw [hb]
        exact Or.inl (if_pos rfl)
      · rw [hb]
        exact Or.inr (if_neg Bool.false_ne_true)
  · intro j1 j2 h1 h2 h3
    rw [resolve_executor_eq, resolve_executor_eq, h1, h2, h3]

/-- Witness for C8: two descriptors differing in irrelevant fields but agreeing on
`source`, `job_type`/`type` and the filename extension take the same route. -/
theorem C8_router_depends_only_on_hints_witness :
    resolve_executor [("source", "upload"), ("filename", "scan one.pdf")] =
      resolve_executor [("filename", "other.pdf"), ("source", "upload"), ("job_id", "7")] :=
  C8_router_depends_only_on_hints.2
    [("source", "upload"), ("filename", "scan one.pdf")]
    [("filename", "other.pdf"), ("source", "upload"), ("job_id", "7")]
    (by decide) (by decide) (by decide)

end DocWorker
